import Mathlib

/-!
Verification of the Expense-tracker spending-persona analytics pipeline.

Shallow embedding of the Python sources:
* `src/ml_model/data_processor.py`        (class `DataProcessor`)
* `src/ml_model/spending_analyzer.py`     (class `SpendingAnalyzer`)
* `src/ml_model/recommendation_engine.py` (class `RecommendationEngine`)
* `src/app.py`                            (endpoint `api_retrain_model`)

Embedding conventions:
* Python floats are idealized as exact rationals `ℚ`; the IEEE value `NaN`
  (produced by pandas `std` over a single sample) is modelled by `Option`,
  with `none` standing for NaN.
* `numpy.round(x, 2)` rounds half to even; `round2` below implements that
  exactly on `ℚ`.
* Square roots (standard deviations) live in `ℝ` via `Real.sqrt`; every
  claim-relevant branch condition stays in `ℚ`/`ℕ` so the `ℝ` parts are
  never forced during evaluation.
* A pandas DataFrame of transactions is a `List Tx`; `groupby('category_name')`
  aggregates fibers of `category_name` with the group keys sorted ascending
  (pandas `groupby` default `sort=True`, lexicographic by code point, which
  is `charLeb` on the underlying character lists).
* Python `sorted` (and the stable-by-uniqueness order pandas presents) is
  `List.insertionSort`, Mathlib's stable sort.
* Python dict payloads (recommendations) are structures whose optional keys
  are `Option` fields; `dict.get(k, d)` is `Option.getD`.
* The mutable `SpendingAnalyzer` object plus the two on-disk model blobs are
  explicit state (`AnalyzerState`); the numerical internals of the external
  sklearn `KMeans`/`StandardScaler` are outside this repository and are
  abstracted (see `kmeans_assign`), while everything the repository itself
  does with them (cluster-count choice, persistence, lazy load, fallback)
  is embedded faithfully.
-/

/-- Lexicographic comparison of character lists by code point; this is the
ordering Python applies to `str` and pandas applies to group keys. -/
def charLeb : List Char → List Char → Bool
  | [], _ => true
  | _ :: _, [] => false
  | a :: as, b :: bs => if a < b then true else if b < a then false else charLeb as bs

/-- Code-point order on strings (Python `str` comparison). -/
def strLe (a b : String) : Prop := charLeb a.data b.data = true

instance : DecidableRel strLe := fun a b =>
  instDecidableEqBool (charLeb a.data b.data) true

/-- A transaction row as fetched by `DataProcessor.get_user_transactions`:
amount, category name and category type, and the day of week that pandas
`Series.dt.dayofweek` derives from `transaction_date` (Monday = 0 .. Sunday = 6).
The `id` and `description` columns never influence the pipeline and are omitted. -/
structure Tx where
  amount : ℚ
  category_name : String
  category_type : String
  weekday : ℕ

/-- One row of the `category_stats` table built in
`DataProcessor.extract_features` (columns `category, total, avg, count, max,
percentage`).  The `std` column is carried separately by `stdColumn` below
because its value lives in `ℝ`. -/
structure CatRow where
  category : String
  total : ℚ
  avg : ℚ
  count : ℕ
  max : ℚ
  percentage : ℚ

namespace DataProcessor

/-- `df[df['category_type'] == 'expense']`. -/
def expenses_df (df : List Tx) : List Tx := df.filter (fun t => t.category_type == "expense")

/-- `expenses_df['amount'].sum()`. -/
def total_expense (df : List Tx) : ℚ := ((expenses_df df).map Tx.amount).sum

/-- The group keys of `expenses_df.groupby('category_name')`: the distinct
category names, sorted ascending (pandas `sort=True`). -/
def groupKeys (e : List Tx) : List String :=
  List.insertionSort strLe ((e.map Tx.category_name).dedup)

/-- The amounts of one `groupby('category_name')` fiber. -/
def amountsIn (e : List Tx) (c : String) : List ℚ :=
  ((e.filter (fun t => t.category_name == c)).map Tx.amount)

/-- Arithmetic mean (pandas `mean`), on the nonempty lists it is applied to. -/
def mean (xs : List ℚ) : ℚ := xs.sum / xs.length

/-- Sample variance with `ddof = 1`, the quantity whose square root pandas
`std` computes (only used for lists of length at least 2). -/
def sampleVar (xs : List ℚ) : ℚ :=
  ((xs.map (fun x => (x - mean xs) ^ 2)).sum) / ((xs.length : ℚ) - 1)

/-- pandas sample standard deviation of a list of amounts: `NaN` (here `none`)
when fewer than two values are present, else `sqrt` of the `ddof = 1` variance. -/
noncomputable def sampleStd (xs : List ℚ) : Option ℝ :=
  if xs.length ≤ 1 then none else some (Real.sqrt (sampleVar xs))

/-- The `std` column of `category_stats` for one group, after
`category_stats['std'].fillna(0)`. -/
noncomputable def stdColumn (xs : List ℚ) : ℝ := (sampleStd xs).getD 0

/-- Rounding half to even on integers offsets, as `numpy.round` does. -/
def roundEven (x : ℚ) : ℤ :=
  if x - ⌊x⌋ = 1 / 2 then (if Even ⌊x⌋ then ⌊x⌋ else ⌊x⌋ + 1) else round x

/-- `.round(2)`: round to two decimal places, half to even. -/
def round2 (x : ℚ) : ℚ := ((roundEven (x * 100) : ℤ) : ℚ) / 100

/-- One row of the aggregation
`expenses_df.groupby('category_name').agg({'amount': [sum, mean, count, std, max]})`
together with the derived `percentage` column
(`category_stats['total'] / total_expense * 100).round(2)`). -/
def mkRow (te : ℚ) (c : String) (xs : List ℚ) : CatRow :=
  { category := c
    total := xs.sum
    avg := mean xs
    count := xs.length
    max := (xs.max?).getD 0
    percentage := round2 (xs.sum / te * 100) }

/-- The full `category_stats` table of `extract_features`. -/
def category_stats (e : List Tx) (te : ℚ) : List CatRow :=
  (groupKeys e).map (fun c => mkRow te c (amountsIn e c))

/-- `expenses_df['day_of_week'].isin([5, 6])`: Saturday or Sunday. -/
def is_weekend (t : Tx) : Bool := t.weekday == 5 || t.weekday == 6

/-- `expenses_df[expenses_df['is_weekend'] == 1]['amount'].sum()`. -/
def weekend_spending (e : List Tx) : ℚ := ((e.filter is_weekend).map Tx.amount).sum

/-- First row attaining the maximal `total`, i.e. `nlargest(1, 'total').iloc[0]`
(`nlargest` keeps the first row among ties). -/
def nlargestTotal : List CatRow → Option CatRow
  | [] => none
  | r :: rs => some (rs.foldl (fun best x => if x.total > best.total then x else best) r)

end DataProcessor

/-- The `features` dictionary returned by `DataProcessor.extract_features`. -/
structure FeatureSet where
  total_expense : ℚ
  num_transactions : ℕ
  avg_transaction : ℚ
  std_transaction : Option ℝ
  max_transaction : ℚ
  weekend_spending_ratio : ℚ
  category_stats : List CatRow
  num_categories : ℕ
  top_category : Option String
  top_category_percentage : ℚ

namespace DataProcessor

/-- `DataProcessor.extract_features`: `None` when the frame is `None`/empty or
contains no expense rows, else the feature dictionary. -/
noncomputable def extract_features (df : List Tx) : Option FeatureSet :=
  if df.length = 0 then none
  else
    let e := expenses_df df
    if e.length = 0 then none
    else
      let te := (e.map Tx.amount).sum
      let stats := category_stats e te
      some
        { total_expense := te
          num_transactions := e.length
          avg_transaction := mean (e.map Tx.amount)
          std_transaction := sampleStd (e.map Tx.amount)
          max_transaction := ((e.map Tx.amount).max?).getD 0
          weekend_spending_ratio := if te > 0 then weekend_spending e / te else 0
          category_stats := stats
          num_categories := stats.length
          top_category := (nlargestTotal stats).map CatRow.category
          top_category_percentage := ((nlargestTotal stats).map CatRow.percentage).getD 0 }

/-- The fixed category schema of `prepare_clustering_data`. -/
def standard_categories : List String :=
  ["Food & Dining", "Transportation", "Shopping",
   "Entertainment", "Bills & Utilities", "Healthcare", "Other"]

/-- One entry of the feature vector; `none` is the IEEE NaN. -/
abbrev VecEntry := Option ℝ

/-- The percentage appended for one standard category: the `percentage` of the
first matching `category_stats` row, `0.0` when the category is absent. -/
def categoryEntry (stats : List CatRow) (cat : String) : VecEntry :=
  match stats.find? (fun r => r.category == cat) with
  | some r => some (r.percentage : ℝ)
  | none => some 0

/-- `DataProcessor.prepare_clustering_data`: `None` for `None` input, else the
11-entry vector built by the loop over `standard_categories` followed by
`feature_vector.extend([...])`. -/
noncomputable def prepare_clustering_data (features : Option FeatureSet) : Option (List VecEntry) :=
  match features with
  | none => none
  | some f =>
    let base := standard_categories.foldl (fun acc cat => acc ++ [categoryEntry f.category_stats cat]) []
    some (base ++
      [some ((f.avg_transaction : ℝ) / 1000),
       f.std_transaction.map (fun s => s / 1000),
       some ((f.weekend_spending_ratio : ℝ) * 100),
       some ((f.num_transactions : ℝ) / 10)])

end DataProcessor

/-- The fitted object stored in `SpendingAnalyzer.model` after sklearn's
`KMeans(...).fit(scaled)`: the cluster count the repository chose and the
batch it was fitted on.  The centroid geometry computed inside sklearn is
external library code and is not re-specified here; no claim depends on it
(see `SpendingAnalyzer.kmeans_assign`).  The vector type `V` is a parameter
because the repository hands numpy arrays through unchanged. -/
structure KModel (V : Type) where
  n_clusters : ℕ
  fitted : List V

/-- The mutable state owned by a `SpendingAnalyzer` object plus the two
on-disk blobs (`models/kmeans_model.pkl`, `models/scaler.pkl`).  `model` and
`scaler` are the in-memory slots (`none` = `self.model is None` / scaler not
fitted); `disk_model`/`disk_scaler` are the persisted artifacts (`none` = the
file does not exist). -/
structure AnalyzerState (V : Type) where
  n_clusters : ℕ
  model : Option (KModel V)
  scaler : Option (List V)
  disk_model : Option (KModel V)
  disk_scaler : Option (List V)

namespace SpendingAnalyzer

/-- `SpendingAnalyzer.__init__(n_clusters=3)` with no model trained or
persisted yet. -/
def initState (V : Type) : AnalyzerState V :=
  { n_clusters := 3, model := none, scaler := none, disk_model := none, disk_scaler := none }

/-- `self.cluster_labels`, the fixed id-to-label dictionary. -/
def cluster_labels (cluster_id : ℕ) : Option String :=
  if cluster_id = 0 then some "Budget Master"
  else if cluster_id = 1 then some "Balanced Saver"
  else if cluster_id = 2 then some "Needs Improvement"
  else none

/-- `get_cluster_name`: `self.cluster_labels.get(cluster_id, "Average Spender")`. -/
def get_cluster_name (cluster_id : ℕ) : String :=
  (cluster_labels cluster_id).getD "Average Spender"

/-- `SpendingAnalyzer.train_model`: pick the cluster count
(`min(len(feature_vectors), 3)` when the batch is smaller than the configured
count, else the configured count), fit scaler and model on the batch, and
persist both blobs (`_save_model`). -/
def train_model (st : AnalyzerState V) (feature_vectors : List V) : AnalyzerState V :=
  let k := if feature_vectors.length < st.n_clusters
           then Nat.min feature_vectors.length 3
           else st.n_clusters
  let m : KModel V := { n_clusters := k, fitted := feature_vectors }
  { st with model := some m, scaler := some feature_vectors,
            disk_model := some m, disk_scaler := some feature_vectors }

/-- `_load_model`: if both artifact files exist, load model and scaler into
memory; otherwise leave the state unchanged. -/
def load_model (st : AnalyzerState V) : AnalyzerState V :=
  match st.disk_model, st.disk_scaler with
  | some m, some s => { st with model := some m, scaler := some s }
  | _, _ => st

/-- The cluster id sklearn's fitted `KMeans.predict` returns for a vector.
Modelled from the spec: "assign to the nearest centroid (cluster id = integer
in `[0, clusterCount)`)" — the numeric nearest-centroid computation happens
inside the external sklearn library, not in this repository, so it is
abstracted to a fixed in-range assignment; no claim constrains this value. -/
def kmeans_assign (_m : KModel V) (_v : V) : ℕ := 0

/-- `SpendingAnalyzer.predict_cluster`: lazily load the persisted model when
none is in memory, fall back to the fixed default cluster `1` ("Balanced
Saver") when there is still none, else scale and assign with the fitted model.
Returns the cluster id together with the (possibly reloaded) object state. -/
def predict_cluster (st : AnalyzerState V) (v : V) : ℕ × AnalyzerState V :=
  let st1 := if st.model.isNone then load_model st else st
  match st1.model with
  | none => (1, st1)
  | some m => (kmeans_assign m v, st1)

end SpendingAnalyzer

/-- A recommendation dictionary.  Every key that some rule omits is an
`Option` field (`none` = key absent), matching the `dict.get` accesses in
`prioritize_recommendations` and `calculate_total_savings_potential`.
Display-only f-string `message` fields are omitted. -/
structure Recommendation where
  type : String
  priority : Option String := none
  category : Option String := none
  current_percentage : Option ℚ := none
  current_amount : Option ℚ := none
  severity : Option String := none
  reduction_percentage : Option ℚ := none
  potential_savings : Option ℚ := none
  transaction_count : Option ℕ := none
  avg_amount : Option ℚ := none
  optimal_range : Option (ℚ × ℚ) := none
  persona : Option String := none
  actionable_tip : Option String := none

namespace RecommendationEngine

/-- `self.reduction_targets`. -/
def reduction_targets (severity : String) : Option ℚ :=
  if severity == "mild" then some (10 / 100)
  else if severity == "moderate" then some (20 / 100)
  else if severity == "severe" then some (30 / 100)
  else none

/-- `_get_priority`: `priority_map.get(severity, 'low')`. -/
def get_priority (severity : String) : String :=
  if severity == "severe" then "critical"
  else if severity == "moderate" then "high"
  else if severity == "mild" then "medium"
  else "low"

/-- `_get_category_tip`: per-category tip table with a generic fallback, then
`category_tips.get(severity, category_tips.get('mild'))`. -/
def get_category_tip (category severity : String) : String :=
  let pick : String → String → String → String := fun sev mod mild =>
    if severity == "severe" then sev
    else if severity == "moderate" then mod
    else mild
  if category == "Food & Dining" then
    pick "Cook at home 5 days/week, limit dining out to special occasions"
         "Meal prep on weekends, pack lunch 3 days/week"
         "Try cooking one new recipe weekly instead of ordering out"
  else if category == "Shopping" then
    pick "Implement a 30-day rule: wait 30 days before any non-essential purchase"
         "Set a weekly shopping budget and stick to it"
         "Make a shopping list and avoid impulse buys"
  else if category == "Entertainment" then
    pick "Switch to free activities: parks, hiking, home movie nights"
         "Limit paid entertainment to 2 times per month"
         "Look for early-bird discounts and group deals"
  else if category == "Transportation" then
    pick "Consider carpooling or public transport for daily commute"
         "Combine errands to reduce fuel costs"
         "Maintain vehicle regularly to improve fuel efficiency"
  else if category == "Bills & Utilities" then
    pick "Audit all subscriptions, cancel unused services"
         "Switch to energy-efficient appliances"
         "Turn off lights/AC when not in use"
  else
    pick "Track every expense and set strict category limits"
         "Review this category weekly and find alternatives"
         "Look for ways to optimize spending"

/-- Percentage-descending comparison used by
`category_stats.sort_values('percentage', ascending=False)`. -/
def percGe (a b : CatRow) : Prop := b.percentage ≤ a.percentage

instance : DecidableRel percGe := fun a b => by unfold percGe; infer_instance

instance percGe_total : IsTotal CatRow percGe where
  total a b := le_total b.percentage a.percentage

instance percGe_trans : IsTrans CatRow percGe where
  trans _ _ _ hab hbc := le_trans hbc hab

/-- `category_stats.sort_values('percentage', ascending=False)`. -/
def sortByPercDesc (stats : List CatRow) : List CatRow :=
  List.insertionSort percGe stats

/-- The body of the `for idx, row in sorted_cats.head(3).iterrows()` loop:
classify the row's severity by its percentage thresholds and build the
recommendation, or skip (`continue`) at 20 percent or below. -/
def highSpendRec (r : CatRow) : Option Recommendation :=
  let severity : Option String :=
    if r.percentage > 35 then some "severe"
    else if r.percentage > 25 then some "moderate"
    else if r.percentage > 20 then some "mild"
    else none
  match severity with
  | none => none
  | some sev =>
    let reduction_pct := (reduction_targets sev).getD 0
    some
      { type := "high_spend"
        priority := some (get_priority sev)
        category := some r.category
        current_percentage := some r.percentage
        current_amount := some r.total
        severity := some sev
        reduction_percentage := some (reduction_pct * 100)
        potential_savings := some (r.total * reduction_pct)
        actionable_tip := some (get_category_tip r.category sev) }

/-- One iteration of a Python `for` loop that either appends a produced
element or `continue`s. -/
def appendOpt (f : α → Option β) (acc : List β) (x : α) : List β :=
  match f x with
  | some b => acc ++ [b]
  | none => acc

/-- `_analyze_high_spending`: iterate the top three rows of the table sorted
by percentage descending, appending one recommendation per non-skipped row. -/
def analyze_high_spending (category_stats : List CatRow) (_total_expense : ℚ) :
    List Recommendation :=
  ((sortByPercDesc category_stats).take 3).foldl (appendOpt highSpendRec) []

/-- `priority_order.get(p, 4)` where `priority_order` maps
critical, high, medium, low to 0, 1, 2, 3. -/
def priority_order (p : String) : ℕ :=
  if p == "critical" then 0
  else if p == "high" then 1
  else if p == "medium" then 2
  else if p == "low" then 3
  else 4

/-- The first component of the sort key of `prioritize_recommendations`:
`priority_order.get(x.get('priority', 'low'), 4)`. -/
def sortRank (x : Recommendation) : ℕ := priority_order (x.priority.getD "low")

/-- The (negated) second component: `x.get('potential_savings', 0)`. -/
def sortSavings (x : Recommendation) : ℚ := x.potential_savings.getD 0

/-- The order `sorted` uses in `prioritize_recommendations`: ascending in the
lexicographic key `(priority rank, -potential_savings)`. -/
def recLe (a b : Recommendation) : Prop :=
  sortRank a < sortRank b ∨ (sortRank a = sortRank b ∧ sortSavings b ≤ sortSavings a)

instance : DecidableRel recLe := fun a b => by unfold recLe; infer_instance

instance recLe_total : IsTotal Recommendation recLe where
  total a b := by
    rcases Nat.lt_trichotomy (sortRank a) (sortRank b) with h | h | h
    · exact Or.inl (Or.inl h)
    · rcases le_total (sortSavings b) (sortSavings a) with hs | hs
      · exact Or.inl (Or.inr ⟨h, hs⟩)
      · exact Or.inr (Or.inr ⟨h.symm, hs⟩)
    · exact Or.inr (Or.inl h)

instance recLe_trans : IsTrans Recommendation recLe where
  trans a b c hab hbc := by
    rcases hab with h1 | ⟨h1, s1⟩
    · rcases hbc with h2 | ⟨h2, _⟩
      · exact Or.inl (h1.trans h2)
      · exact Or.inl (h2 ▸ h1)
    · rcases hbc with h2 | ⟨h2, s2⟩
      · exact Or.inl (h1 ▸ h2)
      · exact Or.inr ⟨h1.trans h2, s2.trans s1⟩

/-- `prioritize_recommendations`: Python's stable `sorted` under the key
`(priority_order.get(priority, 4), -potential_savings)`.  A stable sort is
determined uniquely by its order, so Timsort is embedded as Mathlib's stable
`insertionSort`. -/
def prioritize_recommendations (recommendations : List Recommendation) : List Recommendation :=
  List.insertionSort recLe recommendations

/-- `calculate_total_savings_potential`: sum of `rec.get('potential_savings', 0)`,
rounded to two decimals. -/
def calculate_total_savings_potential (recommendations : List Recommendation) : ℚ :=
  DataProcessor.round2 ((recommendations.map sortSavings).sum)

end RecommendationEngine

/-- Outcome of the `/api/ml/retrain` endpoint: HTTP 400 "Not enough data to
train model", HTTP 200 success carrying the analyzer/disk state after
training, or the HTTP 500 generic handler. -/
inductive RetrainResult (V : Type) where
  | insufficient
  | ok (st : AnalyzerState V)
  | error

/-- Constructor test used by concrete evaluations. -/
def RetrainResult.isInsufficient : RetrainResult V → Bool
  | .insufficient => true
  | _ => false

/-- Constructor test used by concrete evaluations. -/
def RetrainResult.isOk : RetrainResult V → Bool
  | .ok _ => true
  | _ => false

/-- The model state after a successful retrain, if any. -/
def RetrainResult.state : RetrainResult V → Option (AnalyzerState V)
  | .ok st => some st
  | _ => none

/-- `app.api_retrain_model` for a logged-in user whose trailing six-month
window holds `txs`:  `get_user_transactions` yields `None` exactly when the
window is empty, so `df is None or len(df) < 10` collapses to
`txs.length < 10`; otherwise the endpoint extracts features, builds the
single-row clustering matrix and trains.  Two failure paths land in the
endpoint's `except` branch (HTTP 500): when the window has no expense rows,
`extract_features` is `None`, `prepare_clustering_data` passes the `None`
through and `train_model(None)` raises (`len` of `None`); and when the
vector contains a NaN entry (a `none`, produced by the single-expense
`std_transaction`), sklearn's `StandardScaler` maintains the NaN through
`fit_transform` and `KMeans.fit` then rejects NaN input with a
`ValueError`. -/
noncomputable def api_retrain_model (txs : List Tx) (st : AnalyzerState (List DataProcessor.VecEntry)) :
    RetrainResult (List DataProcessor.VecEntry) :=
  if txs.length < 10 then .insufficient
  else
    match DataProcessor.prepare_clustering_data (DataProcessor.extract_features txs) with
    | none => .error
    | some v =>
      if v.any Option.isNone then .error
      else .ok (SpendingAnalyzer.train_model st [v])

section Helpers

open DataProcessor RecommendationEngine SpendingAnalyzer

/-- Flat form of the feature vector: the seven standard-category entries in
their fixed order, then the four behavioral entries. -/
theorem prepare_clustering_eq (f : FeatureSet) :
    prepare_clustering_data (some f) =
      some [categoryEntry f.category_stats "Food & Dining",
            categoryEntry f.category_stats "Transportation",
            categoryEntry f.category_stats "Shopping",
            categoryEntry f.category_stats "Entertainment",
            categoryEntry f.category_stats "Bills & Utilities",
            categoryEntry f.category_stats "Healthcare",
            categoryEntry f.category_stats "Other",
            some ((f.avg_transaction : ℝ) / 1000),
            f.std_transaction.map (fun s => s / 1000),
            some ((f.weekend_spending_ratio : ℝ) * 100),
            some ((f.num_transactions : ℝ) / 10)] := rfl

end Helpers

/-- C4.  If `predict_cluster` is called while no model is loaded in memory
(`model = none`) and neither persisted artifact exists on disk, it returns the
fixed default cluster id 1, whose label is "Balanced Saver".  The embedded
function is total, which captures "never raises". -/
theorem C4_predict_default_cluster (V : Type) (st : AnalyzerState V) (v : V)
    (hm : st.model = none) (hdm : st.disk_model = none) (hds : st.disk_scaler = none) :
    (SpendingAnalyzer.predict_cluster st v).1 = 1 ∧
    SpendingAnalyzer.get_cluster_name 1 = "Balanced Saver" := by
  constructor
  · unfold SpendingAnalyzer.predict_cluster SpendingAnalyzer.load_model
    simp [hm, hdm, hds]
  · rfl

/-- Witness for C4 at the freshly constructed analyzer and a concrete vector. -/
theorem C4_predict_default_cluster_witness :
    (SpendingAnalyzer.predict_cluster (SpendingAnalyzer.initState ℕ) 0).1 = 1 ∧
    SpendingAnalyzer.get_cluster_name 1 = "Balanced Saver" :=
  C4_predict_default_cluster ℕ (SpendingAnalyzer.initState ℕ) 0 rfl rfl rfl

/-- C8 counterexample.  With configured cluster count 10 and a non-empty batch
of 5 vectors, `train_model` builds `KMeans(n_clusters=min(5, 3))`, i.e. 3
clusters — not the sample count 5 the claim requires. -/
theorem C8_train_reduce_counterexample :
    ((SpendingAnalyzer.train_model
        { n_clusters := 10, model := none, scaler := none,
          disk_model := none, disk_scaler := none }
        ([10, 11, 12, 13, 14] : List ℕ)).model.map KModel.n_clusters) = some 3 ∧
    (3 : ℕ) ≠ 5 := ⟨rfl, by decide⟩

/-- C8 amended.  For every non-empty batch smaller than the configured cluster
count, `train_model` sets the cluster count to `min(sample count, 3)` — which
equals the sample count only when at most 3 samples are supplied (in
particular always under the default configuration of 3 clusters) — and this
count still keeps the algorithm well-defined: it is at least 1 and at most
the sample count. -/
theorem C8_train_model_reduces_clusters (V : Type) (st : AnalyzerState V) (vs : List V)
    (hne : vs ≠ []) (hlt : vs.length < st.n_clusters) :
    ((SpendingAnalyzer.train_model st vs).model.map KModel.n_clusters) =
      some (Nat.min vs.length 3) ∧
    1 ≤ Nat.min vs.length 3 ∧ Nat.min vs.length 3 ≤ vs.length := by
  refine ⟨?_, ?_, Nat.min_le_left _ _⟩
  · unfold SpendingAnalyzer.train_model
    simp [hlt]
  · have hlen : 0 < vs.length := List.length_pos.mpr hne
    exact Nat.le_min.mpr ⟨hlen, by norm_num⟩

/-- Witness for C8 amended: a batch of two vectors under the default three
configured clusters is reduced to two clusters. -/
theorem C8_train_model_reduces_clusters_witness :
    ((SpendingAnalyzer.train_model (SpendingAnalyzer.initState ℕ) [7, 8]).model.map
        KModel.n_clusters) = some (Nat.min 2 3) ∧
    1 ≤ Nat.min 2 3 ∧ Nat.min 2 3 ≤ 2 := by
  have h := C8_train_model_reduces_clusters ℕ (SpendingAnalyzer.initState ℕ) [7, 8]
    (by decide) (by decide)
  simpa using h

/-- C3.  `prioritize_recommendations` permutes its input, the result is
sorted by `recLe` — ascending priority rank (`priority_order`: critical 0,
high 1, medium 2, low 3, anything else 4, hence unknown priorities last),
ties broken by descending `potential_savings` — the rank table is exactly as
claimed, and the sort is stable: any two input entries with equal rank and
equal savings keep their relative order. -/
theorem C3_prioritize_spec (l : List Recommendation) :
    List.Perm (RecommendationEngine.prioritize_recommendations l) l ∧
    (RecommendationEngine.prioritize_recommendations l).Sorted RecommendationEngine.recLe ∧
    (RecommendationEngine.priority_order "critical" = 0 ∧
     RecommendationEngine.priority_order "high" = 1 ∧
     RecommendationEngine.priority_order "medium" = 2 ∧
     RecommendationEngine.priority_order "low" = 3 ∧
     ∀ p, p ∉ ["critical", "high", "medium", "low"] →
       RecommendationEngine.priority_order p = 4) ∧
    ∀ a b : Recommendation, List.Sublist [a, b] l →
      RecommendationEngine.sortRank a = RecommendationEngine.sortRank b →
      RecommendationEngine.sortSavings a = RecommendationEngine.sortSavings b →
      List.Sublist [a, b] (RecommendationEngine.prioritize_recommendations l) := by
  refine ⟨List.perm_insertionSort _ l, List.sorted_insertionSort _ l, ⟨rfl, rfl, rfl, rfl, ?_⟩, ?_⟩
  · intro p hp
    unfold RecommendationEngine.priority_order
    split_ifs with h1 h2 h3 h4
    · exact absurd (by simp [eq_of_beq h1]) hp
    · exact absurd (by simp [eq_of_beq h2]) hp
    · exact absurd (by simp [eq_of_beq h3]) hp
    · exact absurd (by simp [eq_of_beq h4]) hp
    · rfl
  · intro a b hsub hrank hsav
    exact List.pair_sublist_insertionSort (Or.inr ⟨hrank, le_of_eq hsav.symm⟩) hsub

/-- Two recommendations with equal priority rank and equal savings, used to
witness the stability clause of C3. -/
def recPairA : Recommendation :=
  { type := "weekend_spending", priority := some "medium", potential_savings := some 200 }

/-- Second element of the stability witness pair for C3. -/
def recPairB : Recommendation :=
  { type := "frequency", priority := some "medium", potential_savings := some 200 }

/-- Witness for C3: on a concrete two-element list with equal keys, the output
keeps the input order. -/
theorem C3_prioritize_spec_witness :
    List.Sublist [recPairA, recPairB]
      (RecommendationEngine.prioritize_recommendations [recPairA, recPairB]) :=
  (C3_prioritize_spec [recPairA, recPairB]).2.2.2 recPairA recPairB
    (List.Sublist.refl _) rfl rfl

/-- C7.  `prepare_clustering_data` is pure and deterministic, and on every
FeatureSet produces exactly the fixed-order 11-entry vector: the percentages
of the seven standard categories (a category absent from the user's stats
contributing `0.0`), then `avg_transaction/1000`, `std_transaction/1000`
(NaN propagating through as `none`), `weekend_spending_ratio*100`, and
`num_transactions/10`. -/
theorem C7_prepare_clustering_spec (f : FeatureSet) :
    DataProcessor.prepare_clustering_data (some f) =
      some [DataProcessor.categoryEntry f.category_stats "Food & Dining",
            DataProcessor.categoryEntry f.category_stats "Transportation",
            DataProcessor.categoryEntry f.category_stats "Shopping",
            DataProcessor.categoryEntry f.category_stats "Entertainment",
            DataProcessor.categoryEntry f.category_stats "Bills & Utilities",
            DataProcessor.categoryEntry f.category_stats "Healthcare",
            DataProcessor.categoryEntry f.category_stats "Other",
            some ((f.avg_transaction : ℝ) / 1000),
            f.std_transaction.map (fun s => s / 1000),
            some ((f.weekend_spending_ratio : ℝ) * 100),
            some ((f.num_transactions : ℝ) / 10)] ∧
    (∀ v, DataProcessor.prepare_clustering_data (some f) = some v → v.length = 11) ∧
    (∀ c, (∀ r ∈ f.category_stats, r.category ≠ c) →
       DataProcessor.categoryEntry f.category_stats c = some 0) ∧
    (∀ g : FeatureSet, f = g →
       DataProcessor.prepare_clustering_data (some f) =
       DataProcessor.prepare_clustering_data (some g)) := by
  refine ⟨prepare_clustering_eq f, ?_, ?_, ?_⟩
  · intro v hv
    rw [prepare_clustering_eq f] at hv
    cases hv
    rfl
  · intro c hc
    unfold DataProcessor.categoryEntry
    cases hfind : f.category_stats.find? (fun r => r.category == c) with
    | none => rfl
    | some r =>
      have hmem := List.mem_of_find?_eq_some hfind
      have hpred := List.find?_some hfind
      exact absurd (eq_of_beq hpred) (hc r hmem)
  · intro g hg
    rw [hg]

/-- A FeatureSet with an empty stats table, used to witness C7. -/
def emptyStatsFS : FeatureSet :=
  { total_expense := 0, num_transactions := 0, avg_transaction := 0,
    std_transaction := none, max_transaction := 0, weekend_spending_ratio := 0,
    category_stats := [], num_categories := 0, top_category := none,
    top_category_percentage := 0 }

/-- Witness for C7: on a concrete FeatureSet with no stats rows, the
"Shopping" slot of the vector is `0.0`. -/
theorem C7_prepare_clustering_spec_witness :
    DataProcessor.categoryEntry emptyStatsFS.category_stats "Shopping" = some 0 :=
  (C7_prepare_clustering_spec emptyStatsFS).2.2.1 "Shopping" (by simp [emptyStatsFS])

/-- `extract_features` yields `None` exactly on an empty frame or a frame
without expense rows (shared characterization). -/
theorem extract_features_eq_none_iff (df : List Tx) :
    DataProcessor.extract_features df = none ↔
      (df = [] ∨ DataProcessor.expenses_df df = []) := by
  by_cases h1 : df.length = 0
  · rw [List.length_eq_zero] at h1
    subst h1
    simp [DataProcessor.extract_features, DataProcessor.expenses_df]
  · by_cases h2 : (DataProcessor.expenses_df df).length = 0
    · rw [List.length_eq_zero] at h2
      simp [DataProcessor.extract_features, h1, h2]
    · have h1b : ¬df = [] := fun h => h1 (by simp [h])
      have h2b : ¬DataProcessor.expenses_df df = [] := fun h => h2 (by simp [h])
      simp [DataProcessor.extract_features, h1, h2, h1b, h2b]

/-- C6.  Under the data-model invariant that expense amounts are positive,
`extract_features` returns `None` exactly when the input is empty or has no
expense rows; in particular a zero total expense forces the `None` result
(never a division-by-zero artifact), and in every other case a FeatureSet is
returned. -/
theorem C6_extract_features_none_iff (df : List Tx)
    (hpos : ∀ t ∈ df, t.category_type = "expense" → 0 < t.amount) :
    (DataProcessor.extract_features df = none ↔
      (df = [] ∨ DataProcessor.expenses_df df = [])) ∧
    (DataProcessor.total_expense df = 0 → DataProcessor.extract_features df = none) := by
  have key := extract_features_eq_none_iff df
  refine ⟨key, ?_⟩
  intro h0
  by_cases he : DataProcessor.expenses_df df = []
  · exact key.mpr (Or.inr he)
  · exfalso
    have hpos2 : ∀ x ∈ (DataProcessor.expenses_df df).map Tx.amount, 0 < x := by
      intro x hx
      rcases List.mem_map.mp hx with ⟨t, ht, rfl⟩
      have hf := List.mem_filter.mp ht
      exact hpos t hf.1 (eq_of_beq hf.2)
    have hne : (DataProcessor.expenses_df df).map Tx.amount ≠ [] := by
      simpa using he
    have hsum := List.sum_pos _ hpos2 hne
    rw [DataProcessor.total_expense] at h0
    exact absurd h0 (ne_of_gt hsum)

/-- A one-row frame with an income transaction only, used to witness C6. -/
def incomeOnlyDf : List Tx :=
  [{ amount := 2000, category_name := "Salary", category_type := "income", weekday := 0 }]

/-- Witness for C6: a frame holding a single income row has no expense rows,
and `extract_features` indeed returns `None` on it. -/
theorem C6_extract_features_none_iff_witness :
    DataProcessor.extract_features incomeOnlyDf = none :=
  (C6_extract_features_none_iff incomeOnlyDf
    (by intro t ht h
        simp only [incomeOnlyDf, List.mem_singleton] at ht
        subst ht
        simp [incomeOnlyDf] at h)).1.mpr
    (Or.inr (by rfl))

/-- C10.  On every input with exactly one expense row, extraction succeeds,
its `std_transaction` is the NaN of a single-sample standard deviation
(modelled `none`), the feature vector propagates that NaN into its ninth
entry (index 8) instead of `0.0`, while the per-category `std` column of the
stats table is filled with `0`. -/
theorem C10_single_expense_nan (df : List Tx)
    (h1 : (DataProcessor.expenses_df df).length = 1) :
    (DataProcessor.extract_features df).isSome = true ∧
    (∀ fs, DataProcessor.extract_features df = some fs →
       fs.std_transaction = none ∧
       ∀ v, DataProcessor.prepare_clustering_data (some fs) = some v →
         v.length = 11 ∧ v.get? 8 = some none) ∧
    (∀ c, DataProcessor.stdColumn
        (DataProcessor.amountsIn (DataProcessor.expenses_df df) c) = 0) := by
  have hdf : ¬df.length = 0 := by
    intro h
    rw [List.length_eq_zero.mp h] at h1
    simp [DataProcessor.expenses_df] at h1
  have he : ¬(DataProcessor.expenses_df df).length = 0 := by omega
  refine ⟨?_, ?_, ?_⟩
  · unfold DataProcessor.extract_features
    simp [hdf, he]
  · intro fs hfs
    unfold DataProcessor.extract_features at hfs
    simp only [hdf, if_false, he] at hfs
    have hstd : fs.std_transaction = none := by
      rw [← Option.some_inj.mp hfs]
      simp [DataProcessor.sampleStd, h1]
    refine ⟨hstd, ?_⟩
    intro v hv
    rw [prepare_clustering_eq fs] at hv
    cases hv
    refine ⟨rfl, ?_⟩
    simp [hstd]
  · intro c
    have hlen : (DataProcessor.amountsIn (DataProcessor.expenses_df df) c).length ≤ 1 := by
      unfold DataProcessor.amountsIn
      rw [List.length_map]
      calc (List.filter _ (DataProcessor.expenses_df df)).length
          ≤ (DataProcessor.expenses_df df).length := List.length_filter_le _ _
        _ = 1 := h1
    simp [DataProcessor.stdColumn, DataProcessor.sampleStd, hlen]

/-- A frame with one expense row and one income row, witnessing C10. -/
def oneExpenseDf : List Tx :=
  [{ amount := 250, category_name := "Shopping", category_type := "expense", weekday := 6 },
   { amount := 1000, category_name := "Salary", category_type := "income", weekday := 0 }]

/-- Witness for C10 on a concrete single-expense frame: extraction succeeds
and the Shopping group's std column is `0`. -/
theorem C10_single_expense_nan_witness :
    (DataProcessor.extract_features oneExpenseDf).isSome = true ∧
    DataProcessor.stdColumn
      (DataProcessor.amountsIn (DataProcessor.expenses_df oneExpenseDf) "Shopping") = 0 :=
  ⟨(C10_single_expense_nan oneExpenseDf rfl).1,
   (C10_single_expense_nan oneExpenseDf rfl).2.2 "Shopping"⟩

/-- The quantity the claim names: the population standard deviation of a
group's amounts.  This is the spec-side definition, written from the claim's
words (mean squared deviation with denominator `n`), for comparison with the
recorded `std` column. -/
noncomputable def popStd_spec (xs : List ℚ) : ℝ :=
  Real.sqrt
    ((((xs.map (fun x => (x - DataProcessor.mean xs) ^ 2)).sum / (xs.length : ℚ) : ℚ) : ℝ))

/-- C9 counterexample.  For a category holding the two expense amounts 1 and
3, the recorded `std` column is the sample standard deviation `sqrt 2`
(pandas `std` uses `ddof = 1`), while the population standard deviation of
the group is `1`; the two differ. -/
theorem C9_std_population_counterexample :
    DataProcessor.stdColumn
        (DataProcessor.amountsIn
          (DataProcessor.expenses_df
            [{ amount := 1, category_name := "A", category_type := "expense", weekday := 0 },
             { amount := 3, category_name := "A", category_type := "expense", weekday := 1 }])
          "A") ≠
      popStd_spec
        (DataProcessor.amountsIn
          (DataProcessor.expenses_df
            [{ amount := 1, category_name := "A", category_type := "expense", weekday := 0 },
             { amount := 3, category_name := "A", category_type := "expense", weekday := 1 }])
          "A") := by
  have hxs : DataProcessor.amountsIn
      (DataProcessor.expenses_df
        [{ amount := 1, category_name := "A", category_type := "expense", weekday := 0 },
         { amount := 3, category_name := "A", category_type := "expense", weekday := 1 }])
      "A" = [(1 : ℚ), 3] := rfl
  rw [hxs]
  have hstd : DataProcessor.stdColumn [(1 : ℚ), 3] = Real.sqrt 2 := by
    have hv : DataProcessor.sampleVar [(1 : ℚ), 3] = 2 := by
      norm_num [DataProcessor.sampleVar, DataProcessor.mean]
    simp [DataProcessor.stdColumn, DataProcessor.sampleStd, hv]
  have hpop : popStd_spec [(1 : ℚ), 3] = 1 := by
    rw [popStd_spec]
    norm_num [DataProcessor.mean]
  rw [hstd, hpop]
  intro h
  have h2 : (Real.sqrt 2) ^ 2 = 1 := by rw [h]; norm_num
  rw [Real.sq_sqrt (by norm_num : (0 : ℝ) ≤ 2)] at h2
  norm_num at h2

/-- C9 amended.  For every group of the `category_stats` aggregation, the
recorded `std` column is the sample standard deviation (`ddof = 1`): it is
`0` when the group has exactly one transaction (pandas yields NaN there and
the code fills it with 0), and `sqrt` of the `ddof = 1` sample variance when
the group has at least two. -/
theorem C9_std_column_is_sample_std (e : List Tx) (c : String)
    (_hc : c ∈ DataProcessor.groupKeys e) :
    ((DataProcessor.amountsIn e c).length = 1 →
       DataProcessor.stdColumn (DataProcessor.amountsIn e c) = 0) ∧
    (2 ≤ (DataProcessor.amountsIn e c).length →
       DataProcessor.stdColumn (DataProcessor.amountsIn e c) =
         Real.sqrt (DataProcessor.sampleVar (DataProcessor.amountsIn e c))) := by
  constructor
  · intro h
    simp [DataProcessor.stdColumn, DataProcessor.sampleStd, h]
  · intro h
    have hgt : ¬(DataProcessor.amountsIn e c).length ≤ 1 := by omega
    simp [DataProcessor.stdColumn, DataProcessor.sampleStd, hgt]

/-- Witness for C9 amended: a one-transaction group gets `std = 0`. -/
theorem C9_std_column_is_sample_std_witness :
    DataProcessor.stdColumn
      (DataProcessor.amountsIn
        [{ amount := 40, category_name := "B", category_type := "expense", weekday := 3 }]
        "B") = 0 :=
  (C9_std_column_is_sample_std
    [{ amount := 40, category_name := "B", category_type := "expense", weekday := 3 }] "B"
    (by simp [DataProcessor.groupKeys, List.insertionSort, List.orderedInsert])).1 rfl

/-- The Python append-loop with `continue` is a `filterMap`: folding an
append of each produced element over the list equals `filterMap`. -/
theorem foldl_append_filterMap (f : α → Option β) :
    ∀ (l : List α) (acc : List β),
      l.foldl (RecommendationEngine.appendOpt f) acc = acc ++ l.filterMap f := by
  intro l
  induction l with
  | nil => intro acc; simp
  | cons x xs ih =>
    intro acc
    cases hfx : f x with
    | none =>
      simp [List.foldl_cons, RecommendationEngine.appendOpt, hfx, ih, List.filterMap_cons]
    | some b =>
      simp [List.foldl_cons, RecommendationEngine.appendOpt, hfx, ih, List.filterMap_cons]

/-- The scenario frame of the claim: Food & Dining 600 and Transportation 200
as the only expenses, plus an income row. -/
def exampleDf : List Tx :=
  [{ amount := 600, category_name := "Food & Dining", category_type := "expense", weekday := 2 },
   { amount := 200, category_name := "Transportation", category_type := "expense", weekday := 4 },
   { amount := 2000, category_name := "Income", category_type := "income", weekday := 1 }]

/-- C2.  The high-spend rule considers exactly the first three rows of the
stats table sorted by percentage descending (`sortByPercDesc` is sorted and
permutes the table); a considered row yields severe/critical with savings
`total * 30%` above 35 percent, moderate/high with `total * 20%` above 25,
mild/medium with `total * 10%` above 20, and nothing at 20 or below; and on
the claim's concrete scenario the rule fires severe for Food & Dining with
potential savings 180. -/
theorem C2_high_spend_rule (stats : List CatRow) (te : ℚ) :
    RecommendationEngine.analyze_high_spending stats te =
      ((RecommendationEngine.sortByPercDesc stats).take 3).filterMap
        RecommendationEngine.highSpendRec ∧
    (RecommendationEngine.sortByPercDesc stats).Sorted RecommendationEngine.percGe ∧
    List.Perm (RecommendationEngine.sortByPercDesc stats) stats ∧
    (∀ r : CatRow,
      (r.percentage > 35 →
        ∃ x, RecommendationEngine.highSpendRec r = some x ∧
          x.severity = some "severe" ∧
          x.potential_savings = some (r.total * (30 / 100)) ∧
          x.priority = some "critical") ∧
      (r.percentage ≤ 35 → r.percentage > 25 →
        ∃ x, RecommendationEngine.highSpendRec r = some x ∧
          x.severity = some "moderate" ∧
          x.potential_savings = some (r.total * (20 / 100)) ∧
          x.priority = some "high") ∧
      (r.percentage ≤ 25 → r.percentage > 20 →
        ∃ x, RecommendationEngine.highSpendRec r = some x ∧
          x.severity = some "mild" ∧
          x.potential_savings = some (r.total * (10 / 100)) ∧
          x.priority = some "medium") ∧
      (r.percentage ≤ 20 → RecommendationEngine.highSpendRec r = none)) ∧
    (∀ fs, DataProcessor.extract_features exampleDf = some fs →
      fs.total_expense = 800 ∧
      ∃ x ∈ RecommendationEngine.analyze_high_spending fs.category_stats fs.total_expense,
        x.category = some "Food & Dining" ∧ x.severity = some "severe" ∧
        x.potential_savings = some 180) := by
  have hmain : ∀ s t, RecommendationEngine.analyze_high_spending s t =
      ((RecommendationEngine.sortByPercDesc s).take 3).filterMap
        RecommendationEngine.highSpendRec := by
    intro s t
    unfold RecommendationEngine.analyze_high_spending
    rw [foldl_append_filterMap]
    simp
  have hmod : ∀ r : CatRow, r.percentage ≤ 35 → r.percentage > 25 →
      RecommendationEngine.highSpendRec r = some
        { type := "high_spend", priority := some "high", category := some r.category,
          current_percentage := some r.percentage, current_amount := some r.total,
          severity := some "moderate", reduction_percentage := some ((20 : ℚ) / 100 * 100),
          potential_savings := some (r.total * (20 / 100)),
          actionable_tip := some (RecommendationEngine.get_category_tip r.category "moderate") } := by
    intro r h35 h25
    unfold RecommendationEngine.highSpendRec
    simp [not_lt.mpr h35, h25, RecommendationEngine.reduction_targets,
      RecommendationEngine.get_priority]
  have hmild : ∀ r : CatRow, r.percentage ≤ 25 → r.percentage > 20 →
      RecommendationEngine.highSpendRec r = some
        { type := "high_spend", priority := some "medium", category := some r.category,
          current_percentage := some r.percentage, current_amount := some r.total,
          severity := some "mild", reduction_percentage := some ((10 : ℚ) / 100 * 100),
          potential_savings := some (r.total * (10 / 100)),
          actionable_tip := some (RecommendationEngine.get_category_tip r.category "mild") } := by
    intro r h25 h20
    unfold RecommendationEngine.highSpendRec
    simp [not_lt.mpr (h25.trans (by norm_num : (25 : ℚ) ≤ 35)), not_lt.mpr h25, h20,
      RecommendationEngine.reduction_targets, RecommendationEngine.get_priority]
  have hsev : ∀ r : CatRow, r.percentage > 35 →
      RecommendationEngine.highSpendRec r = some
        { type := "high_spend", priority := some "critical", category := some r.category,
          current_percentage := some r.percentage, current_amount := some r.total,
          severity := some "severe", reduction_percentage := some ((30 : ℚ) / 100 * 100),
          potential_savings := some (r.total * (30 / 100)),
          actionable_tip := some (RecommendationEngine.get_category_tip r.category "severe") } := by
    intro r h
    unfold RecommendationEngine.highSpendRec
    simp [h, RecommendationEngine.reduction_targets, RecommendationEngine.get_priority]
  refine ⟨hmain stats te, List.sorted_insertionSort _ stats, List.perm_insertionSort _ stats,
    ?_, ?_⟩
  · intro r
    refine ⟨?_, ?_, ?_, ?_⟩
    · intro h
      exact ⟨_, hsev r h, rfl, rfl, rfl⟩
    · intro h35 h25
      exact ⟨_, hmod r h35 h25, rfl, rfl, rfl⟩
    · intro h25 h20
      exact ⟨_, hmild r h25 h20, rfl, rfl, rfl⟩
    · intro h20
      unfold RecommendationEngine.highSpendRec
      simp [not_lt.mpr h20, not_lt.mpr (le_trans h20 (by norm_num : (20 : ℚ) ≤ 25)),
        not_lt.mpr (le_trans h20 (by norm_num : (20 : ℚ) ≤ 35))]
  · intro fs hfs
    have hE : DataProcessor.expenses_df exampleDf =
        [{ amount := 600, category_name := "Food & Dining", category_type := "expense",
           weekday := 2 },
         { amount := 200, category_name := "Transportation", category_type := "expense",
           weekday := 4 }] := rfl
    unfold DataProcessor.extract_features at hfs
    rw [hE] at hfs
    norm_num [exampleDf] at hfs
    subst hfs
    have hrow1 : DataProcessor.mkRow 800 "Food & Dining" [600] =
        { category := "Food & Dining", total := 600, avg := 600, count := 1, max := 600,
          percentage := 75 } := by
      norm_num [DataProcessor.mkRow, DataProcessor.mean, DataProcessor.round2,
        DataProcessor.roundEven, round_eq, Int.fract, List.max?]
    have hrow2 : DataProcessor.mkRow 800 "Transportation" [200] =
        { category := "Transportation", total := 200, avg := 200, count := 1, max := 200,
          percentage := 25 } := by
      norm_num [DataProcessor.mkRow, DataProcessor.mean, DataProcessor.round2,
        DataProcessor.roundEven, round_eq, Int.fract, List.max?]
    have hstats : DataProcessor.category_stats
        [{ amount := 600, category_name := "Food & Dining", category_type := "expense",
           weekday := 2 },
         { amount := 200, category_name := "Transportation", category_type := "expense",
           weekday := 4 }] 800 =
        [{ category := "Food & Dining", total := 600, avg := 600, count := 1, max := 600,
           percentage := 75 },
         { category := "Transportation", total := 200, avg := 200, count := 1, max := 200,
           percentage := 25 }] := by
      have hkeys : DataProcessor.groupKeys
          [{ amount := 600, category_name := "Food & Dining", category_type := "expense",
             weekday := 2 },
           { amount := 200, category_name := "Transportation", category_type := "expense",
             weekday := 4 }] = ["Food & Dining", "Transportation"] := rfl
      unfold DataProcessor.category_stats
      rw [hkeys]
      have ham1 : DataProcessor.amountsIn
          [{ amount := 600, category_name := "Food & Dining", category_type := "expense",
             weekday := 2 },
           { amount := 200, category_name := "Transportation", category_type := "expense",
             weekday := 4 }] "Food & Dining" = [600] := rfl
      have ham2 : DataProcessor.amountsIn
          [{ amount := 600, category_name := "Food & Dining", category_type := "expense",
             weekday := 2 },
           { amount := 200, category_name := "Transportation", category_type := "expense",
             weekday := 4 }] "Transportation" = [200] := rfl
      simp only [List.map_cons, List.map_nil, ham1, ham2, hrow1, hrow2]
    refine ⟨rfl, ?_⟩
    show ∃ x ∈ RecommendationEngine.analyze_high_spending
        (DataProcessor.category_stats
          [{ amount := 600, category_name := "Food & Dining", category_type := "expense",
             weekday := 2 },
           { amount := 200, category_name := "Transportation", category_type := "expense",
             weekday := 4 }] 800) 800, _
    rw [hstats, hmain]
    have hsort : RecommendationEngine.sortByPercDesc
        [{ category := "Food & Dining", total := 600, avg := 600, count := 1, max := 600,
           percentage := 75 },
         { category := "Transportation", total := 200, avg := 200, count := 1, max := 200,
           percentage := 25 }] =
        [{ category := "Food & Dining", total := 600, avg := 600, count := 1, max := 600,
           percentage := 75 },
         { category := "Transportation", total := 200, avg := 200, count := 1, max := 200,
           percentage := 25 }] := by
      norm_num [RecommendationEngine.sortByPercDesc, List.insertionSort, List.orderedInsert,
        RecommendationEngine.percGe]
    rw [hsort]
    have hx := hsev
      { category := "Food & Dining", total := 600, avg := 600, count := 1, max := 600,
        percentage := 75 } (by norm_num)
    have hy := hmild
      { category := "Transportation", total := 200, avg := 200, count := 1, max := 200,
        percentage := 25 } (by norm_num) (by norm_num)
    refine ⟨{ type := "high_spend", priority := some "critical",
              category := some "Food & Dining", current_percentage := some 75,
              current_amount := some 600, severity := some "severe",
              reduction_percentage := some ((30 : ℚ) / 100 * 100),
              potential_savings := some ((600 : ℚ) * (30 / 100)),
              actionable_tip :=
                some (RecommendationEngine.get_category_tip "Food & Dining" "severe") },
            ?_, rfl, rfl, by norm_num⟩
    simp [hx, hy, List.filterMap_cons]

/-- C2 witness: a considered category at 12 percent (at or below the 20
percent threshold) yields no recommendation. -/
theorem C2_high_spend_rule_witness :
    RecommendationEngine.highSpendRec
      { category := "Other", total := 100, avg := 100, count := 1, max := 100,
        percentage := 12 } = none :=
  ((C2_high_spend_rule [] 0).2.2.2.1
    { category := "Other", total := 100, avg := 100, count := 1, max := 100,
      percentage := 12 }).2.2.2 (by norm_num)

/-- A six-month window holding 9 expense rows and 1 income row: 9 expense
transactions, but 10 rows in total. -/
def retrain9Df : List Tx :=
  (List.range 9).map (fun i =>
    { amount := 100, category_name := "Food & Dining", category_type := "expense",
      weekday := i % 7 }) ++
  [{ amount := 5000, category_name := "Salary", category_type := "income", weekday := 0 }]

/-- A six-month window holding exactly 10 expense rows. -/
def retrain10Df : List Tx :=
  (List.range 10).map (fun i =>
    { amount := 100, category_name := "Food & Dining", category_type := "expense",
      weekday := i % 7 })

/-- C5 counterexample.  A window with exactly 9 expense transactions (plus
one income row) does not fail with InsufficientData: the endpoint checks
`len(df) < 10` over all rows, not expense rows, so the claimed "exactly when
fewer than 10 expense transactions" is false. -/
theorem C5_retrain_counterexample :
    (DataProcessor.expenses_df retrain9Df).length = 9 ∧
    (api_retrain_model retrain9Df
        (SpendingAnalyzer.initState (List DataProcessor.VecEntry))).isInsufficient = false :=
  ⟨rfl, rfl⟩

/-- A `categoryEntry` is never NaN: both branches of the lookup return a
number (the row's percentage, or the literal `0.0`). -/
theorem categoryEntry_isNone (stats : List CatRow) (cat : String) :
    (DataProcessor.categoryEntry stats cat).isNone = false := by
  unfold DataProcessor.categoryEntry
  cases stats.find? (fun r => r.category == cat) <;> rfl

/-- A feature vector built from a FeatureSet whose `std_transaction` is a
number contains no NaN entry. -/
theorem prepare_no_nan (f : FeatureSet) (h : f.std_transaction.isNone = false) :
    ∀ v, DataProcessor.prepare_clustering_data (some f) = some v →
      v.any Option.isNone = false := by
  intro v hv
  rw [prepare_clustering_eq] at hv
  cases hv
  cases hstd : f.std_transaction with
  | none => rw [hstd] at h; cases h
  | some s =>
    simp [List.any_cons, List.any_nil, categoryEntry_isNone, hstd]

/-- A feature vector built from a FeatureSet whose `std_transaction` is NaN
contains a NaN entry (the std slot). -/
theorem prepare_has_nan (f : FeatureSet) (h : f.std_transaction = none) :
    ∀ v, DataProcessor.prepare_clustering_data (some f) = some v →
      v.any Option.isNone = true := by
  intro v hv
  rw [prepare_clustering_eq] at hv
  cases hv
  simp [List.any_cons, List.any_nil, h]

/-- C5 amended.  `api_retrain_model` fails with InsufficientData exactly when
the window holds fewer than 10 transactions of any type (an empty window is
reported the same way); in particular 9 expense rows and nothing else fail.
With at least 10 rows among which at least two expense rows, it succeeds and
the resulting analyzer state holds a queryable model.  With at least 10 rows
but at most one expense row it lands in the endpoint's generic 500 error
path instead: no expense rows make `extract_features` return `None` and
`train_model(None)` raise, and exactly one expense row puts the NaN
`std_transaction` into the vector, which sklearn's `KMeans.fit` rejects. -/
theorem C5_retrain_threshold (txs : List Tx)
    (st : AnalyzerState (List DataProcessor.VecEntry)) :
    (api_retrain_model txs st = RetrainResult.insufficient ↔ txs.length < 10) ∧
    (10 ≤ txs.length → 2 ≤ (DataProcessor.expenses_df txs).length →
      ∃ st2, api_retrain_model txs st = RetrainResult.ok st2 ∧ st2.model.isSome = true) ∧
    (10 ≤ txs.length → (DataProcessor.expenses_df txs).length ≤ 1 →
      api_retrain_model txs st = RetrainResult.error) := by
  refine ⟨?_, ?_, ?_⟩
  · unfold api_retrain_model
    by_cases h : txs.length < 10
    · simp [h]
    · cases hp : DataProcessor.prepare_clustering_data (DataProcessor.extract_features txs) with
      | none => simp [h, hp]
      | some v =>
        by_cases hnan : v.any Option.isNone = true
        · simp [h, hp, hnan]
        · simp [h, hp, hnan]
  · intro h10 hexp2
    have h1 : ¬txs.length = 0 := by omega
    have h2 : ¬(DataProcessor.expenses_df txs).length = 0 := by omega
    have hnn : DataProcessor.extract_features txs ≠ none := by
      rw [ne_eq, extract_features_eq_none_iff]
      push_neg
      exact ⟨fun h => h1 (by simp [h]), fun h => h2 (by simp [h])⟩
    obtain ⟨fs, hfs⟩ := Option.ne_none_iff_exists'.mp hnn
    have hfs2 := hfs
    unfold DataProcessor.extract_features at hfs2
    simp only [h1, h2, if_false, Option.some.injEq] at hfs2
    have hproj : fs.std_transaction = DataProcessor.sampleStd
        (List.map Tx.amount (DataProcessor.expenses_df txs)) := by
      rw [← hfs2]
    have hstd : fs.std_transaction.isNone = false := by
      rw [hproj, DataProcessor.sampleStd,
        if_neg (by rw [List.length_map]; omega)]
      rfl
    have hnan := prepare_no_nan fs hstd
    refine ⟨SpendingAnalyzer.train_model st
      [[DataProcessor.categoryEntry fs.category_stats "Food & Dining",
        DataProcessor.categoryEntry fs.category_stats "Transportation",
        DataProcessor.categoryEntry fs.category_stats "Shopping",
        DataProcessor.categoryEntry fs.category_stats "Entertainment",
        DataProcessor.categoryEntry fs.category_stats "Bills & Utilities",
        DataProcessor.categoryEntry fs.category_stats "Healthcare",
        DataProcessor.categoryEntry fs.category_stats "Other",
        some ((fs.avg_transaction : ℝ) / 1000),
        fs.std_transaction.map (fun s => s / 1000),
        some ((fs.weekend_spending_ratio : ℝ) * 100),
        some ((fs.num_transactions : ℝ) / 10)]], ?_, rfl⟩
    unfold api_retrain_model
    rw [if_neg (not_lt.mpr h10), hfs, prepare_clustering_eq]
    dsimp only
    rw [if_neg (by rw [hnan _ (prepare_clustering_eq _)]; exact Bool.false_ne_true)]
  · intro h10 hle
    rcases Nat.le_one_iff_eq_zero_or_eq_one.mp hle with h0 | h1e
    · have hnone : DataProcessor.extract_features txs = none :=
        (extract_features_eq_none_iff txs).mpr (Or.inr (List.length_eq_zero.mp h0))
      unfold api_retrain_model
      rw [if_neg (not_lt.mpr h10), hnone]
      rfl
    · have h1 : ¬txs.length = 0 := by omega
      have h2 : ¬(DataProcessor.expenses_df txs).length = 0 := by omega
      have hnn : DataProcessor.extract_features txs ≠ none := by
        rw [ne_eq, extract_features_eq_none_iff]
        push_neg
        exact ⟨fun h => h1 (by simp [h]), fun h => h2 (by simp [h])⟩
      obtain ⟨fs, hfs⟩ := Option.ne_none_iff_exists'.mp hnn
      have hfs2 := hfs
      unfold DataProcessor.extract_features at hfs2
      simp only [h1, h2, if_false, Option.some.injEq] at hfs2
      have hproj : fs.std_transaction = DataProcessor.sampleStd
          (List.map Tx.amount (DataProcessor.expenses_df txs)) := by
        rw [← hfs2]
      have hstd : fs.std_transaction = none := by
        rw [hproj, DataProcessor.sampleStd, if_pos (by rw [List.length_map]; omega)]
      have hnan := prepare_has_nan fs hstd
      unfold api_retrain_model
      rw [if_neg (not_lt.mpr h10), hfs, prepare_clustering_eq]
      dsimp only
      rw [if_pos (hnan _ (prepare_clustering_eq _))]

/-- Witness for C5 amended: with exactly 10 expense rows the endpoint
succeeds. -/
theorem C5_retrain_threshold_witness :
    (api_retrain_model retrain10Df
        (SpendingAnalyzer.initState (List DataProcessor.VecEntry))).isOk = true := by
  obtain ⟨st2, hok, _⟩ :=
    (C5_retrain_threshold retrain10Df
        (SpendingAnalyzer.initState (List DataProcessor.VecEntry))).2.1
      (by decide) (by decide)
  rw [hok]
  rfl

/-- Half-to-even rounding moves a rational by at most one half. -/
theorem abs_roundEven_sub_le (x : ℚ) : |((DataProcessor.roundEven x : ℤ) : ℚ) - x| ≤ 1 / 2 := by
  unfold DataProcessor.roundEven
  split_ifs with hhalf heven
  · rw [abs_le]
    constructor <;> linarith [hhalf]
  · rw [abs_le]
    push_cast
    constructor <;> linarith [hhalf]
  · have h := abs_sub_round x
    rw [abs_sub_comm] at h
    exact h

/-- Rounding to two decimals moves a rational by at most `1/200`. -/
theorem abs_round2_sub_le (x : ℚ) : |DataProcessor.round2 x - x| ≤ 1 / 200 := by
  unfold DataProcessor.round2
  have h := abs_roundEven_sub_le (x * 100)
  have hx : ((DataProcessor.roundEven (x * 100) : ℤ) : ℚ) / 100 - x =
      (((DataProcessor.roundEven (x * 100) : ℤ) : ℚ) - x * 100) / 100 := by ring
  rw [hx, abs_div]
  rw [show |(100 : ℚ)| = 100 by norm_num]
  linarith [h]

/-- A list all of whose entries are bounded in absolute value has its sum
bounded by length times the bound. -/
theorem abs_sum_le_length_mul (f : α → ℚ) (b : ℚ) :
    ∀ l : List α, (∀ c ∈ l, |f c| ≤ b) → |(l.map f).sum| ≤ l.length * b := by
  intro l
  induction l with
  | nil => intro _; simp
  | cons x xs ih =>
    intro hb
    have h1 : |f x| ≤ b := hb x (List.mem_cons_self x xs)
    have h2 := ih (fun c hc => hb c (List.mem_cons_of_mem x hc))
    calc |(List.map f (x :: xs)).sum| = |f x + (List.map f xs).sum| := by simp
      _ ≤ |f x| + |(List.map f xs).sum| := abs_add _ _
      _ ≤ b + xs.length * b := add_le_add h1 h2
      _ = (x :: xs).length * b := by simp [List.length_cons]; ring

/-- Summing `if c = x then q else 0` over a duplicate-free list containing `x`
gives `q`. -/
theorem sum_ite_eq_of_nodup (x : String) (q : ℚ) :
    ∀ cs : List String, cs.Nodup → x ∈ cs →
      (cs.map (fun c => if c = x then q else 0)).sum = q := by
  intro cs
  induction cs with
  | nil => intro _ h; cases h
  | cons c cs ih =>
    intro hnd hx
    rcases List.mem_cons.mp hx with rfl | hx2
    · have hnot : x ∉ cs := (List.nodup_cons.mp hnd).1
      have hz : (cs.map (fun c => if c = x then q else 0)).sum = 0 := by
        apply List.sum_eq_zero
        intro y hy
        rcases List.mem_map.mp hy with ⟨c2, hc2, rfl⟩
        have : c2 ≠ x := fun h => hnot (h ▸ hc2)
        simp [this]
      simp [hz]
    · have hcx : c ≠ x := fun h => (List.nodup_cons.mp hnd).1 (h ▸ hx2)
      have := ih (List.nodup_cons.mp hnd).2 hx2
      simp [hcx, this]

/-- Sums add pointwise. -/
theorem sum_map_add (f g : α → ℚ) :
    ∀ l : List α, (l.map (fun c => f c + g c)).sum = (l.map f).sum + (l.map g).sum := by
  intro l
  induction l with
  | nil => simp
  | cons x xs ih => simp [ih]; ring

/-- Fiber decomposition of the expense total: summing each group's amount sum
over a duplicate-free key list covering every row gives the overall amount
sum. -/
theorem sum_fiber_eq (cs : List String) (hnd : cs.Nodup) :
    ∀ l : List Tx, (∀ t ∈ l, t.category_name ∈ cs) →
      (cs.map (fun c => (DataProcessor.amountsIn l c).sum)).sum = (l.map Tx.amount).sum := by
  intro l
  induction l with
  | nil =>
    intro _
    simp [DataProcessor.amountsIn]
  | cons t ts ih =>
    intro hcov
    have hsplit : ∀ c, (DataProcessor.amountsIn (t :: ts) c).sum =
        (if c = t.category_name then t.amount else 0) + (DataProcessor.amountsIn ts c).sum := by
      intro c
      unfold DataProcessor.amountsIn
      by_cases hc : t.category_name = c
      · rw [List.filter_cons_of_pos (by simp [hc])]
        simp [hc.symm]
      · rw [List.filter_cons_of_neg (by simp [hc])]
        have : ¬c = t.category_name := fun h => hc h.symm
        simp [this]
    have hmap : (cs.map (fun c => (DataProcessor.amountsIn (t :: ts) c).sum)) =
        cs.map (fun c => (if c = t.category_name then t.amount else 0) +
          (DataProcessor.amountsIn ts c).sum) :=
      List.map_congr_left (fun c _ => hsplit c)
    rw [hmap]
    rw [sum_map_add (fun c => if c = t.category_name then t.amount else 0)
        (fun c => (DataProcessor.amountsIn ts c).sum) cs,
      sum_ite_eq_of_nodup t.category_name t.amount cs hnd
        (hcov t (List.mem_cons_self t ts)),
      ih (fun t2 ht2 => hcov t2 (List.mem_cons_of_mem t ht2))]
    simp

/-- Multiplying each summand by a constant factors out of a list sum. -/
theorem sum_map_mul_const (f : α → ℚ) (k : ℚ) :
    ∀ l : List α, (l.map (fun c => f c * k)).sum = (l.map f).sum * k := by
  intro l
  induction l with
  | nil => simp
  | cons x xs ih => simp [ih]; ring

/-- Sums subtract pointwise. -/
theorem sum_map_sub (f g : α → ℚ) :
    ∀ l : List α, (l.map (fun c => f c - g c)).sum = (l.map f).sum - (l.map g).sum := by
  intro l
  induction l with
  | nil => simp
  | cons x xs ih => simp [ih]; ring

/-- Core bound for C1: over any nonempty expense frame with positive amounts,
the rounded percentages of the stats table sum to 100 up to `1/200` per
category. -/
theorem stats_percentage_sum_bound (e : List Tx) (hne : e ≠ [])
    (hpos : ∀ t ∈ e, 0 < t.amount) :
    |((DataProcessor.category_stats e ((e.map Tx.amount).sum)).map CatRow.percentage).sum - 100|
      ≤ ((DataProcessor.category_stats e ((e.map Tx.amount).sum)).length : ℚ) * (1 / 200) := by
  have hnd : (DataProcessor.groupKeys e).Nodup :=
    ((List.perm_insertionSort strLe ((e.map Tx.category_name).dedup)).nodup_iff).mpr
      (List.nodup_dedup _)
  have hcov : ∀ t ∈ e, t.category_name ∈ DataProcessor.groupKeys e := by
    intro t ht
    have hmem : t.category_name ∈ (e.map Tx.category_name).dedup :=
      List.mem_dedup.mpr (List.mem_map_of_mem Tx.category_name ht)
    exact ((List.perm_insertionSort strLe _).mem_iff).mpr hmem
  have hfib := sum_fiber_eq (DataProcessor.groupKeys e) hnd e hcov
  have hpos2 : ∀ x ∈ e.map Tx.amount, 0 < x := by
    intro x hx
    rcases List.mem_map.mp hx with ⟨t, ht, rfl⟩
    exact hpos t ht
  have hte : 0 < (e.map Tx.amount).sum :=
    List.sum_pos _ hpos2 (by simpa using hne)
  have hmapped : (DataProcessor.category_stats e ((e.map Tx.amount).sum)).map CatRow.percentage =
      (DataProcessor.groupKeys e).map
        (fun c => DataProcessor.round2
          ((DataProcessor.amountsIn e c).sum / (e.map Tx.amount).sum * 100)) := by
    unfold DataProcessor.category_stats
    rw [List.map_map]
    rfl
  have hfuneq : (fun c => (DataProcessor.amountsIn e c).sum / (e.map Tx.amount).sum * 100) =
      (fun c => (DataProcessor.amountsIn e c).sum * (100 / (e.map Tx.amount).sum)) := by
    funext c
    ring
  have hT : ((DataProcessor.groupKeys e).map
      (fun c => (DataProcessor.amountsIn e c).sum / (e.map Tx.amount).sum * 100)).sum = 100 := by
    rw [hfuneq, sum_map_mul_const, hfib]
    field_simp
  have hdiff : ((DataProcessor.groupKeys e).map
      (fun c => DataProcessor.round2
        ((DataProcessor.amountsIn e c).sum / (e.map Tx.amount).sum * 100))).sum - 100 =
      ((DataProcessor.groupKeys e).map
        (fun c => DataProcessor.round2
          ((DataProcessor.amountsIn e c).sum / (e.map Tx.amount).sum * 100) -
          (DataProcessor.amountsIn e c).sum / (e.map Tx.amount).sum * 100)).sum := by
    rw [sum_map_sub
      (fun c => DataProcessor.round2
        ((DataProcessor.amountsIn e c).sum / (e.map Tx.amount).sum * 100))
      (fun c => (DataProcessor.amountsIn e c).sum / (e.map Tx.amount).sum * 100), hT]
  have hbound := abs_sum_le_length_mul
    (fun c => DataProcessor.round2
      ((DataProcessor.amountsIn e c).sum / (e.map Tx.amount).sum * 100) -
      (DataProcessor.amountsIn e c).sum / (e.map Tx.amount).sum * 100)
    (1 / 200) (DataProcessor.groupKeys e)
    (fun c _ => abs_round2_sub_le _)
  have hlen : (DataProcessor.category_stats e ((e.map Tx.amount).sum)).length =
      (DataProcessor.groupKeys e).length := by
    unfold DataProcessor.category_stats
    rw [List.length_map]
  rw [hmapped, hdiff, hlen]
  exact hbound

/-- C1 amended.  For every frame with at least one expense row and positive
expense amounts, every row of the `category_stats` table satisfies
`percentage = round2(total / total_expense * 100)`, and the percentages sum
to 100 within `1/200` (= 0.005) per category — hence within the claimed
`± 0.1` whenever there are at most 20 categories.  (The claimed unconditional
`± 0.1` fails for larger tables; see the counterexample.) -/
theorem C1_percentages (df : List Tx) (fs : FeatureSet)
    (hpos : ∀ t ∈ df, t.category_type = "expense" → 0 < t.amount)
    (hfs : DataProcessor.extract_features df = some fs) :
    (∀ r ∈ fs.category_stats,
       r.percentage = DataProcessor.round2 (r.total / fs.total_expense * 100)) ∧
    |(fs.category_stats.map CatRow.percentage).sum - 100| ≤
      (fs.num_categories : ℚ) * (1 / 200) ∧
    (fs.num_categories ≤ 20 →
      |(fs.category_stats.map CatRow.percentage).sum - 100| ≤ 1 / 10) := by
  have hor : ¬(df = [] ∨ DataProcessor.expenses_df df = []) := by
    intro h
    rw [(extract_features_eq_none_iff df).mpr h] at hfs
    cases hfs
  push_neg at hor
  obtain ⟨hdf, he⟩ := hor
  have h1 : ¬df.length = 0 := fun h => hdf (List.length_eq_zero.mp h)
  have h2 : ¬(DataProcessor.expenses_df df).length = 0 := fun h => he (List.length_eq_zero.mp h)
  unfold DataProcessor.extract_features at hfs
  simp only [h1, h2, if_false, Option.some.injEq] at hfs
  subst hfs
  have hposE : ∀ t ∈ DataProcessor.expenses_df df, 0 < t.amount := by
    intro t ht
    have hf := List.mem_filter.mp ht
    exact hpos t hf.1 (eq_of_beq hf.2)
  have hmain := stats_percentage_sum_bound (DataProcessor.expenses_df df) he hposE
  refine ⟨?_, ?_, ?_⟩
  · intro r hr
    obtain ⟨c, hc, rfl⟩ := List.mem_map.mp hr
    rfl
  · exact hmain
  · intro h20
    have h20q : ((DataProcessor.category_stats (DataProcessor.expenses_df df)
        ((List.map Tx.amount (DataProcessor.expenses_df df)).sum)).length : ℚ) ≤ 20 := by
      exact_mod_cast h20
    calc |((DataProcessor.category_stats (DataProcessor.expenses_df df)
          ((List.map Tx.amount (DataProcessor.expenses_df df)).sum)).map
            CatRow.percentage).sum - 100|
        ≤ _ * (1 / 200) := hmain
      _ ≤ 20 * (1 / 200) := by
          apply mul_le_mul_of_nonneg_right h20q
          norm_num
      _ ≤ 1 / 10 := by norm_num

/-- A frame of 23 expense rows in 23 distinct categories whose exact
percentages are 4.155 (22 times) and 8.59: every 4.155 is an exact half at
the second decimal and rounds up to 4.16 under half-to-even, so the rounded
percentages sum to 100.11. -/
def wideDf : List Tx :=
  [{ amount := 831, category_name := "A", category_type := "expense", weekday := 0 },
   { amount := 831, category_name := "B", category_type := "expense", weekday := 0 },
   { amount := 831, category_name := "C", category_type := "expense", weekday := 0 },
   { amount := 831, category_name := "D", category_type := "expense", weekday := 0 },
   { amount := 831, category_name := "E", category_type := "expense", weekday := 0 },
   { amount := 831, category_name := "F", category_type := "expense", weekday := 0 },
   { amount := 831, category_name := "G", category_type := "expense", weekday := 0 },
   { amount := 831, category_name := "H", category_type := "expense", weekday := 0 },
   { amount := 831, category_name := "I", category_type := "expense", weekday := 0 },
   { amount := 831, category_name := "J", category_type := "expense", weekday := 0 },
   { amount := 831, category_name := "K", category_type := "expense", weekday := 0 },
   { amount := 831, category_name := "L", category_type := "expense", weekday := 0 },
   { amount := 831, category_name := "M", category_type := "expense", weekday := 0 },
   { amount := 831, category_name := "N", category_type := "expense", weekday := 0 },
   { amount := 831, category_name := "O", category_type := "expense", weekday := 0 },
   { amount := 831, category_name := "P", category_type := "expense", weekday := 0 },
   { amount := 831, category_name := "Q", category_type := "expense", weekday := 0 },
   { amount := 831, category_name := "R", category_type := "expense", weekday := 0 },
   { amount := 831, category_name := "S", category_type := "expense", weekday := 0 },
   { amount := 831, category_name := "T", category_type := "expense", weekday := 0 },
   { amount := 831, category_name := "U", category_type := "expense", weekday := 0 },
   { amount := 831, category_name := "V", category_type := "expense", weekday := 0 },
   { amount := 1718, category_name := "W", category_type := "expense", weekday := 0 }]

/-- The group keys of `wideDf` in sorted order. -/
theorem wideDf_groupKeys : DataProcessor.groupKeys wideDf = ["A", "B", "C", "D", "E", "F", "G", "H", "I", "J", "K", "L", "M", "N", "O", "P", "Q", "R", "S", "T", "U", "V", "W"] := rfl

/-- Helper: the `category_stats` table `extract_features` returns, for any
frame passing both emptiness checks. -/
theorem extract_features_stats_eq (df : List Tx) (h1 : ¬df.length = 0)
    (h2 : ¬(DataProcessor.expenses_df df).length = 0) :
    (DataProcessor.extract_features df).elim [] FeatureSet.category_stats =
      DataProcessor.category_stats (DataProcessor.expenses_df df)
        ((List.map Tx.amount (DataProcessor.expenses_df df)).sum) := by
  unfold DataProcessor.extract_features
  simp only [h1, h2, if_false]
  rfl

set_option maxHeartbeats 4000000 in
set_option maxRecDepth 8000 in
/-- C1 counterexample.  `wideDf` is non-empty (23 rows), all rows are
expenses, extraction succeeds — yet the percentages of the produced
`category_stats` table sum to 100.11, outside the claimed `± 0.1`. -/
theorem C1_sum_counterexample :
    wideDf.length = 23 ∧
    (DataProcessor.expenses_df wideDf).length = 23 ∧
    (DataProcessor.extract_features wideDf).isSome = true ∧
    ¬(|(((DataProcessor.extract_features wideDf).elim [] FeatureSet.category_stats).map
        CatRow.percentage).sum - 100| ≤ 1 / 10) := by
  have hlen1 : wideDf.length = 23 := rfl
  have hlen2 : (DataProcessor.expenses_df wideDf).length = 23 := rfl
  have h1 : ¬wideDf.length = 0 := by simp [hlen1]
  have h2 : ¬(DataProcessor.expenses_df wideDf).length = 0 := by simp [hlen2]
  have hE : DataProcessor.expenses_df wideDf = wideDf := rfl
  have hsome : (DataProcessor.extract_features wideDf).isSome = true := by
    rw [Option.isSome_iff_ne_none, ne_eq, extract_features_eq_none_iff]
    push_neg
    constructor
    · intro h
      rw [h] at hlen1
      simp at hlen1
    · intro h
      rw [h] at hlen2
      simp at hlen2
  refine ⟨hlen1, hlen2, hsome, ?_⟩
  rw [extract_features_stats_eq wideDf h1 h2, hE]
  have hte : (List.map Tx.amount wideDf).sum = 20000 := by
    norm_num [wideDf]
  rw [hte]
  have hperc : ((DataProcessor.category_stats wideDf 20000).map CatRow.percentage).sum =
      10011 / 100 := by
    have hamA : DataProcessor.amountsIn wideDf "A" = [831] := rfl
    have hamB : DataProcessor.amountsIn wideDf "B" = [831] := rfl
    have hamC : DataProcessor.amountsIn wideDf "C" = [831] := rfl
    have hamD : DataProcessor.amountsIn wideDf "D" = [831] := rfl
    have hamE : DataProcessor.amountsIn wideDf "E" = [831] := rfl
    have hamF : DataProcessor.amountsIn wideDf "F" = [831] := rfl
    have hamG : DataProcessor.amountsIn wideDf "G" = [831] := rfl
    have hamH : DataProcessor.amountsIn wideDf "H" = [831] := rfl
    have hamI : DataProcessor.amountsIn wideDf "I" = [831] := rfl
    have hamJ : DataProcessor.amountsIn wideDf "J" = [831] := rfl
    have hamK : DataProcessor.amountsIn wideDf "K" = [831] := rfl
    have hamL : DataProcessor.amountsIn wideDf "L" = [831] := rfl
    have hamM : DataProcessor.amountsIn wideDf "M" = [831] := rfl
    have hamN : DataProcessor.amountsIn wideDf "N" = [831] := rfl
    have hamO : DataProcessor.amountsIn wideDf "O" = [831] := rfl
    have hamP : DataProcessor.amountsIn wideDf "P" = [831] := rfl
    have hamQ : DataProcessor.amountsIn wideDf "Q" = [831] := rfl
    have hamR : DataProcessor.amountsIn wideDf "R" = [831] := rfl
    have hamS : DataProcessor.amountsIn wideDf "S" = [831] := rfl
    have hamT : DataProcessor.amountsIn wideDf "T" = [831] := rfl
    have hamU : DataProcessor.amountsIn wideDf "U" = [831] := rfl
    have hamV : DataProcessor.amountsIn wideDf "V" = [831] := rfl
    have hamW : DataProcessor.amountsIn wideDf "W" = [1718] := rfl
    unfold DataProcessor.category_stats
    rw [wideDf_groupKeys, List.map_map]
    simp only [List.map_cons, List.map_nil, Function.comp, hamA, hamB, hamC, hamD, hamE, hamF, hamG, hamH, hamI, hamJ, hamK, hamL, hamM, hamN, hamO, hamP, hamQ, hamR, hamS, hamT, hamU, hamV, hamW]
    norm_num [DataProcessor.mkRow, DataProcessor.round2, DataProcessor.roundEven,
      round_eq, Int.fract, Int.even_iff]
  rw [hperc, abs_le]
  push_neg
  intro _
  norm_num

/-- A one-expense frame for the C1 witness. -/
def dfWitness : List Tx :=
  [{ amount := 50, category_name := "A", category_type := "expense", weekday := 0 }]

/-- Witness for C1 amended at a concrete one-category frame: the table's
rounded percentages sum to 100 within the claimed tolerance. -/
theorem C1_percentages_witness :
    |((DataProcessor.category_stats (DataProcessor.expenses_df dfWitness)
        ((List.map Tx.amount (DataProcessor.expenses_df dfWitness)).sum)).map
          CatRow.percentage).sum - 100| ≤ 1 / 10 := by
  have hfs : DataProcessor.extract_features dfWitness = some
      { total_expense := (List.map Tx.amount (DataProcessor.expenses_df dfWitness)).sum,
        num_transactions := (DataProcessor.expenses_df dfWitness).length,
        avg_transaction :=
          DataProcessor.mean (List.map Tx.amount (DataProcessor.expenses_df dfWitness)),
        std_transaction :=
          DataProcessor.sampleStd (List.map Tx.amount (DataProcessor.expenses_df dfWitness)),
        max_transaction :=
          ((List.map Tx.amount (DataProcessor.expenses_df dfWitness)).max?).getD 0,
        weekend_spending_ratio :=
          if (List.map Tx.amount (DataProcessor.expenses_df dfWitness)).sum > 0 then
            DataProcessor.weekend_spending (DataProcessor.expenses_df dfWitness) /
              (List.map Tx.amount (DataProcessor.expenses_df dfWitness)).sum
          else 0,
        category_stats := DataProcessor.category_stats (DataProcessor.expenses_df dfWitness)
          ((List.map Tx.amount (DataProcessor.expenses_df dfWitness)).sum),
        num_categories := (DataProcessor.category_stats (DataProcessor.expenses_df dfWitness)
          ((List.map Tx.amount (DataProcessor.expenses_df dfWitness)).sum)).length,
        top_category := (DataProcessor.nlargestTotal
          (DataProcessor.category_stats (DataProcessor.expenses_df dfWitness)
            ((List.map Tx.amount (DataProcessor.expenses_df dfWitness)).sum))).map
              CatRow.category,
        top_category_percentage := ((DataProcessor.nlargestTotal
          (DataProcessor.category_stats (DataProcessor.expenses_df dfWitness)
            ((List.map Tx.amount (DataProcessor.expenses_df dfWitness)).sum))).map
              CatRow.percentage).getD 0 } := rfl
  have hpos : ∀ t ∈ dfWitness, t.category_type = "expense" → 0 < t.amount := by
    intro t ht _
    simp only [dfWitness, List.mem_singleton] at ht
    subst ht
    norm_num
  have h := C1_percentages dfWitness _ hpos hfs
  exact h.2.2 (by decide)
